import Mathlib

/-!
Verification of the stdin-to-VISA adapter (src/python/visa_adapter.py)
against its specification.

The program is embedded shallowly: the external pyvisa instrument is an
oracle (`Instrument`) whose operations either succeed or raise with a
message, mirroring the places where the Python code can observe an
exception.  Output effects are recorded as explicit lists: stdout lines,
structured stderr lines (one constructor per `print(..., file=sys.stderr)`
format string in the source), and transport calls.
-/

namespace VisaAdapter

/-- ASCII fragment of Python's whitespace set used by `str.strip()`:
space, tab, newline, carriage return, vertical tab (11), form feed (12). -/
def pyIsSpace (c : Char) : Bool :=
  c = ' ' || c = '\t' || c = '\n' || c = '\r' || c.toNat = 11 || c.toNat = 12

/-- Python `line.strip()`: remove leading and trailing whitespace. -/
def pyStrip (s : String) : String :=
  String.mk (((s.toList.dropWhile pyIsSpace).reverse.dropWhile pyIsSpace).reverse)

/-- Python `s.startswith(p)`. -/
def pyStartsWith (s p : String) : Bool :=
  p.toList.isPrefixOf s.toList

/-- Python membership test `c in s` for a single character. -/
def pyContains (s : String) (c : Char) : Bool :=
  s.toList.contains c

/-- A call made on the transport collaborator (pyvisa), in order:
`rm.open_resource(...)`, `inst.timeout = ...`, `inst.query(line)`,
`inst.write(line)`, `inst.close()`. -/
inductive Call where
  | openR : Call
  | setTimeout (ms : Int) : Call
  | query (cmd : String) : Call
  | write (cmd : String) : Call
  | close : Call
deriving DecidableEq

/-- One line printed to standard error, kept structurally: each
constructor corresponds to one `print(..., file=sys.stderr)` format
string in the source (or to argparse's usage message).  `queryErr l e`
is the line produced for a failed query on command text `l` with
exception text `e`; `writeErr` likewise for a failed write; `fatal e` is
the top-level handler's single line; `importErr` the missing-pyvisa
message; `usage` argparse's usage/error output. -/
inductive ErrLine where
  | importErr : ErrLine
  | usage : ErrLine
  | queryErr (line : String) (msg : String) : ErrLine
  | writeErr (line : String) (msg : String) : ErrLine
  | fatal (msg : String) : ErrLine
deriving DecidableEq

/-- The external instrument, as the adapter can observe it: each
operation either succeeds or raises an exception carrying a message.
`openResult` covers both `pyvisa.ResourceManager()` and
`rm.open_resource(...)`; `timeoutResult` the `inst.timeout = ...`
assignment; `queryResult`/`writeResult` the per-line calls;
`closeResult` the final `inst.close()`. -/
structure Instrument where
  openResult : Except String Unit
  timeoutResult : Except String Unit
  queryResult : String → Except String String
  writeResult : String → Except String Unit
  closeResult : Except String Unit

/-- Effects accumulated while handling input lines. -/
structure LineEffect where
  out : List String
  err : List ErrLine
  calls : List Call
deriving DecidableEq

/-- The skip filter (line 28 of the source): after stripping, the line is
dropped when it is empty or starts with `#` or `//`. -/
def skipsLine (raw : String) : Bool :=
  pyStrip raw == "" || pyStartsWith (pyStrip raw) "#" || pyStartsWith (pyStrip raw) "//"

/-- One iteration of the `for line in lines` loop (lines 26-43 of the
source): strip, skip blanks/comments, then dispatch as a query when the
stripped line contains a question mark (printing the stripped response
on success) and as a write otherwise; either failure is caught and
reported to stderr. -/
def processLine (inst : Instrument) (raw : String) : LineEffect :=
  if skipsLine raw then ⟨[], [], []⟩
  else if pyContains (pyStrip raw) '?' then
    match inst.queryResult (pyStrip raw) with
    | .ok resp => ⟨[pyStrip resp], [], [.query (pyStrip raw)]⟩
    | .error e => ⟨[], [.queryErr (pyStrip raw) e], [.query (pyStrip raw)]⟩
  else
    match inst.writeResult (pyStrip raw) with
    | .ok _ => ⟨[], [], [.write (pyStrip raw)]⟩
    | .error e => ⟨[], [.writeErr (pyStrip raw) e], [.write (pyStrip raw)]⟩

/-- The whole `for` loop: the effects of each line, concatenated in
input order. -/
def runBody (inst : Instrument) : List String → LineEffect
  | [] => ⟨[], [], []⟩
  | l :: rest =>
    let e := processLine inst l
    let r := runBody inst rest
    ⟨e.out ++ r.out, e.err ++ r.err, e.calls ++ r.calls⟩

/-- Observable result of a whole run. -/
structure RunResult where
  out : List String
  err : List ErrLine
  calls : List Call
  exitCode : Nat
deriving DecidableEq

/-- The body of `main` after argument parsing (lines 16-49): open the
resource, set the timeout, run the loop over the stdin lines, close.
The `try` block spans everything from opening to `inst.close()`, so an
exception at open, at the timeout assignment, or at close reaches the
top-level handler, which prints one fatal line and exits 1; note that no
`finally` exists, so `close()` is only reached on the straight-line
path. -/
def runMain (inst : Instrument) (timeoutMs : Int) (stdinLines : List String) : RunResult :=
  match inst.openResult with
  | .error e => ⟨[], [.fatal e], [.openR], 1⟩
  | .ok _ =>
    match inst.timeoutResult with
    | .error e => ⟨[], [.fatal e], [.openR, .setTimeout timeoutMs], 1⟩
    | .ok _ =>
      let b := runBody inst stdinLines
      match inst.closeResult with
      | .ok _ =>
        ⟨b.out, b.err, [.openR, .setTimeout timeoutMs] ++ b.calls ++ [.close], 0⟩
      | .error e =>
        ⟨b.out, b.err ++ [.fatal e], [.openR, .setTimeout timeoutMs] ++ b.calls ++ [.close], 1⟩

/-- Parsed command-line arguments. -/
structure Args where
  resource : String
  timeoutMs : Int
deriving DecidableEq

/-- Read a run of decimal digits, most significant first, on top of an
accumulator. -/
def pyDigitsGo : List Char → Nat → Option Nat
  | [], acc => some acc
  | c :: rest, acc =>
    if c.isDigit then pyDigitsGo rest (acc * 10 + (c.toNat - 48))
    else none

/-- Model of Python `int(s)` as argparse applies it to `--timeout`
values: an optional sign followed by at least one decimal digit
(underscores and surrounding whitespace are not modelled). -/
def pyToInt (s : String) : Option Int :=
  match s.toList with
  | [] => none
  | '-' :: rest =>
    if rest = [] then none else (pyDigitsGo rest 0).map (fun n => -(n : Int))
  | '+' :: rest =>
    if rest = [] then none else (pyDigitsGo rest 0).map (fun n => (n : Int))
  | cs => (pyDigitsGo cs 0).map (fun n => (n : Int))

/-- Accumulating pass over argv for `parseArgs`. -/
def parseArgsGo : List String → Option String → Option Int → Except Unit Args
  | [], some r, t => .ok ⟨r, t.getD 5000⟩
  | [], none, _ => .error ()
  | "--timeout" :: v :: rest, r, _ =>
    match pyToInt v with
    | some n => parseArgsGo rest r (some n)
    | none => .error ()
  | ["--timeout"], _, _ => .error ()
  | a :: rest, r, t =>
    if pyStartsWith a "-" then .error ()
    else
      match r with
      | none => parseArgsGo rest (some a) t
      | some _ => .error ()

/-- Model of the argparse configuration at lines 11-14 of the source:
one required positional `resource` and an option `--timeout` of type
int with default 5000.  On a usage error (missing or extra positional,
unrecognised option, missing or non-integer option value) argparse
prints its usage message to stderr and terminates the process with
status 2; `--help` and option abbreviations are not modelled. -/
def parseArgs (argv : List String) : Except Unit Args :=
  parseArgsGo argv none none

/-- Everything an invocation of the program depends on: whether the
pyvisa module can be imported, the command-line arguments, the
instrument the transport reaches, and the lines readable on stdin. -/
structure Invocation where
  pyvisaAvailable : Bool
  argv : List String
  inst : Instrument
  stdinLines : List String

/-- The whole program: the import guard at lines 4-8 (missing pyvisa
prints one line and exits 1), then argument parsing (usage errors exit
2), then `main`'s body. -/
def runProgram (inv : Invocation) : RunResult :=
  if inv.pyvisaAvailable = false then ⟨[], [.importErr], [], 1⟩
  else
    match parseArgs inv.argv with
    | .error _ => ⟨[], [.usage], [], 2⟩
    | .ok a => runMain inv.inst a.timeoutMs inv.stdinLines

/-- An instrument on which every operation succeeds; queries answer with
a fixed identification string. -/
def okInst : Instrument where
  openResult := .ok ()
  timeoutResult := .ok ()
  queryResult := fun _ => .ok " ACME,Model1,SN1,v1\n"
  writeResult := fun _ => .ok ()
  closeResult := .ok ()

/-- An instrument that opens but on which the timeout assignment raises. -/
def badTimeoutInst : Instrument where
  openResult := .ok ()
  timeoutResult := .error "attribute error"
  queryResult := fun _ => .ok ""
  writeResult := fun _ => .ok ()
  closeResult := .ok ()

/-- An instrument on which only the final close raises. -/
def badCloseInst : Instrument where
  openResult := .ok ()
  timeoutResult := .ok ()
  queryResult := fun _ => .ok "1"
  writeResult := fun _ => .ok ()
  closeResult := .error "VI_ERROR_CONN_LOST"

/-- An instrument on which every per-line operation fails but everything
else succeeds. -/
def failLineInst : Instrument where
  openResult := .ok ()
  timeoutResult := .ok ()
  queryResult := fun _ => .error "timeout expired"
  writeResult := fun _ => .error "write error"
  closeResult := .ok ()

/-- Is this transport call a query? -/
def isQueryCall : Call → Bool
  | .query _ => true
  | _ => false

/-- A raw input line is dispatched as a query when it survives the skip
filter and its stripped text contains a question mark. -/
def dispatchedQuery (raw : String) : Bool :=
  !skipsLine raw && pyContains (pyStrip raw) '?'

/-- The stdout contribution of one raw input line: the stripped response
when the line is dispatched as a query and the query succeeds, nothing
otherwise. -/
def lineStdout (inst : Instrument) (raw : String) : Option String :=
  if dispatchedQuery raw then
    match inst.queryResult (pyStrip raw) with
    | .ok r => some (pyStrip r)
    | .error _ => none
  else none

/-! ### Structural lemmas about the loop -/

lemma processLine_out (inst : Instrument) (raw : String) :
    (processLine inst raw).out = (lineStdout inst raw).toList := by
  unfold processLine lineStdout dispatchedQuery
  rcases h : skipsLine raw with _ | _
  · rcases hq : pyContains (pyStrip raw) '?' with _ | _
    · rcases hw : inst.writeResult (pyStrip raw) with e | u <;> simp [h, hq, hw]
    · rcases hr : inst.queryResult (pyStrip raw) with e | r <;> simp [h, hq, hr]
  · simp [h]

lemma runBody_out (inst : Instrument) :
    ∀ lines : List String, (runBody inst lines).out = lines.filterMap (lineStdout inst)
  | [] => rfl
  | l :: rest => by
    show (processLine inst l).out ++ (runBody inst rest).out = _
    rw [processLine_out, runBody_out inst rest, List.filterMap_cons]
    cases lineStdout inst l <;> simp

lemma processLine_queryCalls (inst : Instrument) (raw : String) :
    (processLine inst raw).calls.filter isQueryCall =
      if dispatchedQuery raw then [Call.query (pyStrip raw)] else [] := by
  unfold processLine dispatchedQuery
  rcases h : skipsLine raw with _ | _
  · rcases hq : pyContains (pyStrip raw) '?' with _ | _
    · rcases hw : inst.writeResult (pyStrip raw) with e | u <;>
        simp [h, hq, hw, isQueryCall]
    · rcases hr : inst.queryResult (pyStrip raw) with e | r <;>
        simp [h, hq, hr, isQueryCall]
  · simp [h]

lemma runBody_queryCalls (inst : Instrument) :
    ∀ lines : List String,
      (runBody inst lines).calls.filter isQueryCall =
        (lines.filter dispatchedQuery).map (fun raw => Call.query (pyStrip raw))
  | [] => rfl
  | l :: rest => by
    show ((processLine inst l).calls ++ (runBody inst rest).calls).filter isQueryCall = _
    rw [List.filter_append, processLine_queryCalls, runBody_queryCalls inst rest,
      List.filter_cons]
    rcases h : dispatchedQuery l with _ | _ <;> simp [h]

lemma processLine_no_close (inst : Instrument) (raw : String) :
    Call.close ∉ (processLine inst raw).calls := by
  unfold processLine
  rcases h : skipsLine raw with _ | _
  · rcases hq : pyContains (pyStrip raw) '?' with _ | _
    · rcases hw : inst.writeResult (pyStrip raw) with e | u <;> simp [h, hq, hw]
    · rcases hr : inst.queryResult (pyStrip raw) with e | r <;> simp [h, hq, hr]
  · simp [h]

lemma runBody_no_close (inst : Instrument) :
    ∀ lines : List String, Call.close ∉ (runBody inst lines).calls
  | [] => by simp [runBody]
  | l :: rest => by
    have h1 := processLine_no_close inst l
    have h2 := runBody_no_close inst rest
    show Call.close ∉ (processLine inst l).calls ++ (runBody inst rest).calls
    rw [List.mem_append]
    exact fun h => h.elim h1 h2

/-! ### Claims -/

/-- C1: a line surviving the skip filter is dispatched as a query exactly
when its stripped text contains a question mark; otherwise it is
dispatched as a write and produces no stdout line; a successful query
prints the response stripped of surrounding whitespace. -/
theorem c1_query_heuristic (inst : Instrument) (raw : String)
    (hks : skipsLine raw = false) :
    ((processLine inst raw).calls = [Call.query (pyStrip raw)] ↔
      pyContains (pyStrip raw) '?' = true) ∧
    (pyContains (pyStrip raw) '?' = false →
      (processLine inst raw).calls = [Call.write (pyStrip raw)] ∧
      (processLine inst raw).out = []) ∧
    (∀ resp, pyContains (pyStrip raw) '?' = true →
      inst.queryResult (pyStrip raw) = .ok resp →
      (processLine inst raw).out = [pyStrip resp]) := by
  unfold processLine
  rcases hq : pyContains (pyStrip raw) '?' with _ | _
  · rcases hw : inst.writeResult (pyStrip raw) with e | u <;> simp [hks, hq, hw]
  · rcases hr : inst.queryResult (pyStrip raw) with e | r <;> simp [hks, hq, hr]

/-- C1 witness at the line `" *IDN?\n"` on the all-succeeding instrument. -/
theorem c1_query_heuristic_witness :
    (processLine okInst " *IDN?\n").calls = [Call.query (pyStrip " *IDN?\n")] :=
  ((c1_query_heuristic okInst " *IDN?\n" (by decide)).1).mpr (by decide)

/-- C2: when the query or write for a dispatched line fails, the loop
iteration produces exactly one stderr line carrying that line's (stripped)
text, and the loop over any remaining input still contributes all of its
own effects after it: the failure does not abort the run. -/
theorem c2_line_failure_reported (inst : Instrument) (raw e : String)
    (rest : List String) (hks : skipsLine raw = false)
    (hfail : (pyContains (pyStrip raw) '?' = true ∧
              inst.queryResult (pyStrip raw) = .error e) ∨
             (pyContains (pyStrip raw) '?' = false ∧
              inst.writeResult (pyStrip raw) = .error e)) :
    ((processLine inst raw).err = [ErrLine.queryErr (pyStrip raw) e] ∨
     (processLine inst raw).err = [ErrLine.writeErr (pyStrip raw) e]) ∧
    runBody inst (raw :: rest) =
      ⟨(processLine inst raw).out ++ (runBody inst rest).out,
       (processLine inst raw).err ++ (runBody inst rest).err,
       (processLine inst raw).calls ++ (runBody inst rest).calls⟩ := by
  refine ⟨?_, rfl⟩
  unfold processLine
  rcases hfail with ⟨hq, hr⟩ | ⟨hq, hw⟩
  · left; simp [hks, hq, hr]
  · right; simp [hks, hq, hw]

/-- C2 witness: a failing write on `"VOLT 5"` followed by another line. -/
theorem c2_line_failure_reported_witness :
    ((processLine failLineInst "VOLT 5").err =
       [ErrLine.queryErr (pyStrip "VOLT 5") "write error"] ∨
     (processLine failLineInst "VOLT 5").err =
       [ErrLine.writeErr (pyStrip "VOLT 5") "write error"]) ∧
    runBody failLineInst ("VOLT 5" :: ["*IDN?"]) =
      ⟨(processLine failLineInst "VOLT 5").out ++ (runBody failLineInst ["*IDN?"]).out,
       (processLine failLineInst "VOLT 5").err ++ (runBody failLineInst ["*IDN?"]).err,
       (processLine failLineInst "VOLT 5").calls ++ (runBody failLineInst ["*IDN?"]).calls⟩ :=
  c2_line_failure_reported failLineInst "VOLT 5" "write error" ["*IDN?"] (by decide)
    (Or.inr ⟨by decide, rfl⟩)

/-- C3: when opening the resource fails, or opening succeeds and the
timeout assignment fails, the run prints exactly one stderr line (the
fatal one), exits with status 1, and makes no query or write call. -/
theorem c3_fatal_startup (inst : Instrument) (ms : Int) (lines : List String)
    (h : (∃ e, inst.openResult = Except.error e) ∨
         (inst.openResult = Except.ok () ∧
          ∃ e, inst.timeoutResult = Except.error e)) :
    (runMain inst ms lines).err.length = 1 ∧
    (∃ e, (runMain inst ms lines).err = [ErrLine.fatal e]) ∧
    (runMain inst ms lines).exitCode = 1 ∧
    ∀ s, Call.query s ∉ (runMain inst ms lines).calls ∧
         Call.write s ∉ (runMain inst ms lines).calls := by
  rcases h with ⟨e, he⟩ | ⟨ho, e, he⟩
  · unfold runMain; simp [he]
  · unfold runMain; simp [ho, he]

/-- C3 witness: the instrument whose timeout assignment raises. -/
theorem c3_fatal_startup_witness :
    (runMain badTimeoutInst 5000 ["*IDN?"]).err.length = 1 ∧
    (∃ e, (runMain badTimeoutInst 5000 ["*IDN?"]).err = [ErrLine.fatal e]) ∧
    (runMain badTimeoutInst 5000 ["*IDN?"]).exitCode = 1 ∧
    ∀ s, Call.query s ∉ (runMain badTimeoutInst 5000 ["*IDN?"]).calls ∧
         Call.write s ∉ (runMain badTimeoutInst 5000 ["*IDN?"]).calls :=
  c3_fatal_startup badTimeoutInst 5000 ["*IDN?"]
    (Or.inr ⟨rfl, "attribute error", rfl⟩)

/-- C4 counterexample: the source has no `finally`, so on the fatal path
where the timeout assignment raises after a successful open, the run ends
(exit 1) with zero `close()` calls — refuting the claim that `close()` is
invoked exactly once on every exit path. -/
theorem c4_close_counterexample :
    badTimeoutInst.openResult = Except.ok () ∧
    (runMain badTimeoutInst 5000 []).exitCode = 1 ∧
    (runMain badTimeoutInst 5000 []).calls.count Call.close = 0 :=
  ⟨rfl, rfl, by decide⟩

/-- C4 amended: `close()` is invoked exactly once whenever the run
reaches the loop (open and timeout assignment both succeed), even when
per-line operations or the close itself fail; but on the fatal path
where the timeout assignment fails after open, no `close()` call is
made. -/
theorem c4_close_once_on_loop_path (inst : Instrument) (ms : Int)
    (lines : List String) (ho : inst.openResult = Except.ok ()) :
    (inst.timeoutResult = Except.ok () →
      (runMain inst ms lines).calls.count Call.close = 1) ∧
    (∀ e, inst.timeoutResult = Except.error e →
      (runMain inst ms lines).calls.count Call.close = 0) := by
  constructor
  · intro ht
    have h1 : ([Call.openR, Call.setTimeout ms] : List Call).count Call.close = 0 :=
      List.count_eq_zero.mpr (by simp)
    have h2 : (runBody inst lines).calls.count Call.close = 0 :=
      List.count_eq_zero.mpr (runBody_no_close inst lines)
    rcases hc : inst.closeResult with e | u <;>
      simp [runMain, ho, ht, hc, List.count_append, h1, h2]
  · intro e ht
    simp [runMain, ho, ht]

/-- C4 amended witness: one close call on a run that reaches the loop. -/
theorem c4_close_once_on_loop_path_witness :
    (runMain okInst 5000 ["VOLT 5"]).calls.count Call.close = 1 :=
  (c4_close_once_on_loop_path okInst 5000 ["VOLT 5"] rfl).1 rfl

/-- C5: once the loop is reached, stdout is exactly the list of stripped
responses of the successful queries of the dispatched question-mark
lines, in input order, and the query calls made are exactly one per
dispatched question-mark line, in input order. -/
theorem c5_query_outputs_in_order (inst : Instrument) (ms : Int)
    (lines : List String) (ho : inst.openResult = Except.ok ())
    (ht : inst.timeoutResult = Except.ok ()) :
    (runMain inst ms lines).out = lines.filterMap (lineStdout inst) ∧
    (runMain inst ms lines).calls.filter isQueryCall =
      (lines.filter dispatchedQuery).map (fun raw => Call.query (pyStrip raw)) := by
  rcases hc : inst.closeResult with e | u <;>
    simp [runMain, ho, ht, hc, List.filter_append, List.filter_cons,
      runBody_out, runBody_queryCalls, isQueryCall]

/-- C5 witness: a write line, a query line and a comment; stdout holds
the single stripped response and exactly one query call is made. -/
theorem c5_query_outputs_in_order_witness :
    (runMain okInst 5000 ["OUTP ON", " *IDN?\n", "# go?"]).out =
      ["ACME,Model1,SN1,v1"] ∧
    (runMain okInst 5000 ["OUTP ON", " *IDN?\n", "# go?"]).calls.filter isQueryCall =
      [Call.query "*IDN?"] := by
  have h := c5_query_outputs_in_order okInst 5000 ["OUTP ON", " *IDN?\n", "# go?"]
    rfl rfl
  exact ⟨h.1.trans (by decide), h.2.trans (by decide)⟩

/-- C6: a line that strips to empty or to a `#`/`//` comment produces no
transport call, no stdout line and no stderr line. -/
theorem c6_skipped_line_no_effect (inst : Instrument) (raw : String)
    (h : skipsLine raw = true) :
    processLine inst raw = ⟨[], [], []⟩ := by
  unfold processLine; simp [h]

/-- C6 witness: a comment, a blank line and a `//` comment. -/
theorem c6_skipped_line_no_effect_witness :
    processLine okInst "# comment" = ⟨[], [], []⟩ ∧
    processLine okInst "   " = ⟨[], [], []⟩ ∧
    processLine okInst " // note" = ⟨[], [], []⟩ :=
  ⟨c6_skipped_line_no_effect okInst "# comment" (by decide),
   c6_skipped_line_no_effect okInst "   " (by decide),
   c6_skipped_line_no_effect okInst " // note" (by decide)⟩

/-- C7 counterexample: `inst.close()` sits inside the `try`, so a close
failure ends an otherwise clean run with exit status 1 even though the
connection was established and every line was read — refuting the claim
as stated. -/
theorem c7_close_failure_counterexample :
    badCloseInst.openResult = Except.ok () ∧
    badCloseInst.timeoutResult = Except.ok () ∧
    (runMain badCloseInst 5000 ["VOLT 5"]).exitCode = 1 :=
  ⟨rfl, rfl, by decide⟩

/-- C7 amended: if open, timeout assignment and the final close all
succeed, the run exits 0 no matter how the per-line queries and writes
fared; moreover the exit code never depends on the per-line query and
write outcomes. -/
theorem c7_exit_zero_despite_line_failures (inst : Instrument) (ms : Int)
    (lines : List String) (ho : inst.openResult = Except.ok ())
    (ht : inst.timeoutResult = Except.ok ())
    (hc : inst.closeResult = Except.ok ()) :
    (runMain inst ms lines).exitCode = 0 ∧
    ∀ q w, (runMain { inst with queryResult := q, writeResult := w } ms lines).exitCode
      = (runMain inst ms lines).exitCode := by
  constructor
  · simp [runMain, ho, ht, hc]
  · intro q w
    simp [runMain, ho, ht, hc]

/-- C7 amended witness: every per-line operation fails, yet exit 0. -/
theorem c7_exit_zero_despite_line_failures_witness :
    (runMain failLineInst 5000 ["OUTP ON", "*IDN?"]).exitCode = 0 :=
  (c7_exit_zero_despite_line_failures failLineInst 5000 ["OUTP ON", "*IDN?"]
    rfl rfl rfl).1

/-- C8 counterexample: an invocation with no command-line arguments is a
usage error, which argparse answers by terminating with status 2 — an
exit status other than 0 and 1, refuting the claim as stated. -/
theorem c8_exit_code_counterexample :
    (runProgram ⟨true, [], okInst, []⟩).exitCode = 2 ∧
    ¬((runProgram ⟨true, [], okInst, []⟩).exitCode = 0 ∨
      (runProgram ⟨true, [], okInst, []⟩).exitCode = 1) := by decide

/-- C8 amended: every invocation exits with status 0 (normal
completion), 1 (missing pyvisa or top-level fatal error), or 2
(command-line usage error); no other status occurs. -/
theorem c8_exit_codes (inv : Invocation) :
    (runProgram inv).exitCode = 0 ∨ (runProgram inv).exitCode = 1 ∨
    (runProgram inv).exitCode = 2 := by
  unfold runProgram runMain
  cases hb : inv.pyvisaAvailable <;>
    cases hp : parseArgs inv.argv <;>
      cases ho : inv.inst.openResult <;>
        cases ht : inv.inst.timeoutResult <;>
          cases hc : inv.inst.closeResult <;>
            simp [hb, hp, ho, ht, hc]

/-- C9: the comment check runs before the query heuristic: a line whose
stripped text starts with `#` or `//` is skipped outright, even when it
contains a question mark. -/
theorem c9_comment_precedence (inst : Instrument) (raw : String)
    (h : pyStartsWith (pyStrip raw) "#" = true ∨
         pyStartsWith (pyStrip raw) "//" = true) :
    processLine inst raw = ⟨[], [], []⟩ := by
  have hs : skipsLine raw = true := by
    unfold skipsLine
    rcases h with h | h <;> simp [h]
  unfold processLine; simp [hs]

/-- C9 witness: `"# ready?"` contains a question mark yet is skipped. -/
theorem c9_comment_precedence_witness :
    pyContains (pyStrip "# ready?") '?' = true ∧
    processLine okInst "# ready?" = ⟨[], [], []⟩ :=
  ⟨by decide, c9_comment_precedence okInst "# ready?" (Or.inl (by decide))⟩

/-- C10: the command string handed to the transport call of a dispatched
line is always the stripped line, whether it goes out as a query or as a
write. -/
theorem c10_dispatch_uses_stripped_line (inst : Instrument) (raw : String)
    (h : skipsLine raw = false) :
    (processLine inst raw).calls = [Call.query (pyStrip raw)] ∨
    (processLine inst raw).calls = [Call.write (pyStrip raw)] := by
  rcases hq : pyContains (pyStrip raw) '?' with _ | _
  · right
    unfold processLine
    rcases hw : inst.writeResult (pyStrip raw) with e | u <;> simp [h, hq, hw]
  · left
    unfold processLine
    rcases hr : inst.queryResult (pyStrip raw) with e | r <;> simp [h, hq, hr]

/-- C10 witness: a raw line with surrounding whitespace and a trailing
newline is dispatched with its stripped text. -/
theorem c10_dispatch_uses_stripped_line_witness :
    (processLine okInst "  *IDN?\n").calls = [Call.query (pyStrip "  *IDN?\n")] ∨
    (processLine okInst "  *IDN?\n").calls = [Call.write (pyStrip "  *IDN?\n")] :=
  c10_dispatch_uses_stripped_line okInst "  *IDN?\n" (by decide)

end VisaAdapter
